import Mathlib

/-!
Verification development for the AI-Risk-Mitigation-System repository.

The core under study is the risk-scoring engine (`ml_service.py`, documented
in `ML_SERVICE_README.md` and exercised by `test_pipeline.sh`): five
independent detectors over an input text, a confidence estimator, a summary
generator and the `analyze` orchestration.  The engine source itself is not
part of the available tree, so its definitions below are modelled from the
specification.  The chat-relay routes (`Backend/routes/chat.js` and the two
`test-ui` routes) are present in the tree and are embedded from their source.
-/

/-- The ordered three-value risk enumeration used by the four level-valued
detectors (spec section 3, README "LOW/MEDIUM/HIGH"). -/
inductive RiskLevel where
  | LOW
  | MEDIUM
  | HIGH
deriving DecidableEq, BEq, Fintype

/-- Lower-case an ASCII character (codes 65-90 map to 97-122). -/
def lowerChar (c : Char) : Char :=
  if 65 ≤ c.toNat ∧ c.toNat ≤ 90 then Char.ofNat (c.toNat + 32) else c

/-- The character list of a string, lower-cased (case-insensitive scanning). -/
def lowerStr (s : String) : List Char :=
  s.data.map lowerChar

/-- Whether character list `needle` occurs contiguously inside `hay`. -/
def listInfix (needle hay : List Char) : Bool :=
  hay.tails.any (fun s => needle.isPrefixOf s)

/-- Whether keyword `kw` occurs anywhere in text `t`, case-insensitively. -/
def kwOccurs (kw : String) (t : String) : Bool :=
  listInfix (lowerStr kw) (lowerStr t)

/-- Modelled from the spec: the keyword-match count used by the four
level-valued detectors of the missing `ml_service.py` — the number of
keywords from the given list that occur (case-insensitively) in the text. -/
def countMatches (kws : List String) (t : String) : Nat :=
  (kws.filter (fun kw => kwOccurs kw t)).length

/-- Modelled from the spec: the three-tier thresholding shared by the four
level-valued detectors — 0 matches: LOW, 1-2 matches: MEDIUM, 3 or more:
HIGH. -/
def levelOfCount (n : Nat) : RiskLevel :=
  if 3 ≤ n then RiskLevel.HIGH
  else if 1 ≤ n then RiskLevel.MEDIUM
  else RiskLevel.LOW

/-- Modelled from the spec: the absolutist/overcertainty keyword list of the
hallucination detector (spec section 4.1). -/
def HALLUCINATION_KEYWORDS : List String :=
  ["definitely", "absolutely", "guaranteed", "without doubt", "100%",
   "proven fact", "always works", "never fails"]

/-- Modelled from the spec: the generalization keyword list of the bias
detector (spec section 4.2). -/
def BIAS_KEYWORDS : List String :=
  ["always", "never", "all", "none", "everyone", "nobody", "every single"]

/-- Modelled from the spec: the toxic/offensive keyword list of the toxicity
detector (spec section 4.3). -/
def TOXICITY_KEYWORDS : List String :=
  ["hate", "stupid", "idiot", "terrible", "awful", "horrible", "garbage"]

/-- Modelled from the spec: the urgency/pressure keyword list of the fraud
detector (spec section 4.4). -/
def FRAUD_KEYWORDS : List String :=
  ["guaranteed", "free money", "limited time", "act now", "call now",
   "risk-free", "get rich quick", "100% returns"]

/-- Modelled from the spec: `detect_hallucination` of the missing
`ml_service.py` (spec section 4.1). -/
def detect_hallucination (t : String) : RiskLevel :=
  levelOfCount (countMatches HALLUCINATION_KEYWORDS t)

/-- Modelled from the spec: `detect_bias` of the missing `ml_service.py`
(spec section 4.2). -/
def detect_bias (t : String) : RiskLevel :=
  levelOfCount (countMatches BIAS_KEYWORDS t)

/-- Modelled from the spec: `detect_toxicity` of the missing `ml_service.py`
(spec section 4.3). -/
def detect_toxicity (t : String) : RiskLevel :=
  levelOfCount (countMatches TOXICITY_KEYWORDS t)

/-- Modelled from the spec: `detect_fraud` of the missing `ml_service.py`
(spec section 4.4). -/
def detect_fraud (t : String) : RiskLevel :=
  levelOfCount (countMatches FRAUD_KEYWORDS t)

/-- Whether `c` is an ASCII letter. -/
def isAlphaCh (c : Char) : Bool :=
  (65 ≤ c.toNat && c.toNat ≤ 90) || (97 ≤ c.toNat && c.toNat ≤ 122)

/-- Whether `c` is an ASCII digit. -/
def isDigitCh (c : Char) : Bool :=
  48 ≤ c.toNat && c.toNat ≤ 57

/-- Characters allowed in the local part of an email address. -/
def isLocalChar (c : Char) : Bool :=
  isAlphaCh c || isDigitCh c || c == '.' || c == '_' || c == '%' || c == '+' || c == '-'

/-- Characters allowed in the domain part of an email address. -/
def isDomainChar (c : Char) : Bool :=
  isAlphaCh c || isDigitCh c || c == '.' || c == '-'

/-- A dot followed by at least two letters starts here (the `.tld` tail of
an email address). -/
def tldFrom (cs : List Char) : Bool :=
  match cs with
  | c0 :: c1 :: c2 :: _ => c0 == '.' && isAlphaCh c1 && isAlphaCh c2
  | _ => false

/-- After at least one domain character: keep consuming domain characters
until a `.tld` tail is found. -/
def domainTail (cs : List Char) : Bool :=
  tldFrom cs ||
    (match cs with
     | c :: rest => isDomainChar c && domainTail rest
     | [] => false)

/-- The domain-and-tld part of an email address starts here. -/
def domainFrom (cs : List Char) : Bool :=
  match cs with
  | c :: rest => isDomainChar c && domainTail rest
  | [] => false

/-- Modelled from the spec: the email pattern of the missing `ml_service.py`
PII detector — a `local@domain.tld` shape starting at this position. -/
def emailAt (cs : List Char) : Bool :=
  match cs with
  | c :: _ =>
    isLocalChar c &&
      (match cs.dropWhile isLocalChar with
       | a :: rest => a == '@' && domainFrom rest
       | [] => false)
  | [] => false

/-- An email address occurs anywhere in the character list. -/
def emailMatch (cs : List Char) : Bool :=
  cs.tails.any emailAt

/-- Consume exactly `n` digits, returning the rest of the list. -/
def takeDigits : Nat → List Char → Option (List Char)
  | 0, cs => some cs
  | n + 1, c :: cs => if isDigitCh c then takeDigits n cs else none
  | _ + 1, [] => none

/-- Consume one optional separator character from the given set. -/
def skipSep (seps : List Char) (cs : List Char) : List Char :=
  match cs with
  | c :: rest => if seps.contains c then rest else cs
  | [] => []

/-- Modelled from the spec: the phone pattern of the missing `ml_service.py`
PII detector — three digits, optional separator, three digits, optional
separator, four digits, starting at this position. -/
def phoneAt (cs : List Char) : Bool :=
  match takeDigits 3 cs with
  | none => false
  | some r1 =>
    match takeDigits 3 (skipSep ['-', '.', ' '] r1) with
    | none => false
    | some r2 => (takeDigits 4 (skipSep ['-', '.', ' '] r2)).isSome

/-- A phone number occurs anywhere in the character list. -/
def phoneMatch (cs : List Char) : Bool :=
  cs.tails.any phoneAt

/-- Modelled from the spec: the SSN pattern of the missing `ml_service.py`
PII detector — three digits, optional dash, two digits, optional dash, four
digits, starting at this position. -/
def ssnAt (cs : List Char) : Bool :=
  match takeDigits 3 cs with
  | none => false
  | some r1 =>
    match takeDigits 2 (skipSep ['-'] r1) with
    | none => false
    | some r2 => (takeDigits 4 (skipSep ['-'] r2)).isSome

/-- An SSN-shaped number occurs anywhere in the character list. -/
def ssnMatch (cs : List Char) : Bool :=
  cs.tails.any ssnAt

/-- Modelled from the spec: the credit-card pattern of the missing
`ml_service.py` PII detector — sixteen digits, optionally grouped in fours
by spaces or dashes, starting at this position. -/
def creditCardAt (cs : List Char) : Bool :=
  match takeDigits 4 cs with
  | none => false
  | some r1 =>
    match takeDigits 4 (skipSep [' ', '-'] r1) with
    | none => false
    | some r2 =>
      match takeDigits 4 (skipSep [' ', '-'] r2) with
      | none => false
      | some r3 => (takeDigits 4 (skipSep [' ', '-'] r3)).isSome

/-- A credit-card-shaped number occurs anywhere in the character list. -/
def creditCardMatch (cs : List Char) : Bool :=
  cs.tails.any creditCardAt

/-- Street-type words recognized by the address heuristic. -/
def STREET_WORDS : List String :=
  ["street", "st", "avenue", "ave", "road", "rd", "boulevard", "blvd",
   "drive", "dr", "lane", "ln", "way", "court", "ct"]

/-- One of the street-type words starts here (case-insensitively), followed
by a non-letter or the end of the text. -/
def streetWordAt (cs : List Char) : Bool :=
  STREET_WORDS.any fun w =>
    let wl := w.data
    wl.isPrefixOf (cs.map lowerChar) &&
      (match cs.drop wl.length with
       | [] => true
       | c :: _ => !(isAlphaCh c))

/-- Modelled from the spec: the physical-address heuristic of the missing
`ml_service.py` PII detector — a number, a space, a word, a space and a
street-type word, starting at this position (e.g. `123 Main St`). -/
def addressAt (cs : List Char) : Bool :=
  match cs with
  | c :: rest =>
    isDigitCh c &&
      (match rest.dropWhile isDigitCh with
       | s1 :: afterSp =>
         s1 == ' ' &&
           (match afterSp with
            | d :: rest2 =>
              isAlphaCh d &&
                (match rest2.dropWhile isAlphaCh with
                 | s2 :: tail => s2 == ' ' && streetWordAt tail
                 | [] => false)
            | [] => false)
       | [] => false)
  | [] => false

/-- A street address occurs anywhere in the character list. -/
def addressMatch (cs : List Char) : Bool :=
  cs.tails.any addressAt

/-- Modelled from the spec: `detect_pii` of the missing `ml_service.py` —
the OR of the five independent pattern checks (spec section 4.5). -/
def detect_pii (t : String) : Bool :=
  emailMatch t.data || phoneMatch t.data || ssnMatch t.data ||
    creditCardMatch t.data || addressMatch t.data

/-- The four risk levels as a list, for agreement counting. -/
def levelList (h b t f : RiskLevel) : List RiskLevel :=
  [h, b, t, f]

/-- How many of the four detectors agree on the most common level. -/
def maxAgreement (h b t f : RiskLevel) : Nat :=
  let ls := levelList h b t f
  max (ls.count RiskLevel.LOW)
    (max (ls.count RiskLevel.MEDIUM) (ls.count RiskLevel.HIGH))

/-- Modelled from the spec: `calculate_confidence` of the missing
`ml_service.py` (spec section 4.6) — a weighted sum of a length term, an
agreement term and a PII-reliability term, clipped to the 0.75-0.99 band. -/
def calculate_confidence (t : String) (h b tox f : RiskLevel) (pii : Bool) : ℚ :=
  let lengthTerm : ℚ := (min t.length 200 : ℕ) / 200
  let agreeTerm : ℚ := ((maxAgreement h b tox f - 1 : ℕ) : ℚ) / 3
  let piiTerm : ℚ := if pii then 1 else 0
  let raw : ℚ := 3 / 4 + (12 * agreeTerm + 10 * lengthTerm + 2 * piiTerm) / 100
  max (3 / 4) (min (99 / 100) raw)

/-- The affirmative sentence emitted when nothing is flagged. -/
def NO_RISK_SUMMARY : String :=
  "No significant risks detected."

/-- Name of the hallucination dimension inside a summary. -/
def DIM_HALLUCINATION : String := "hallucination risk"

/-- Name of the bias dimension inside a summary. -/
def DIM_BIAS : String := "bias risk"

/-- Name of the toxicity dimension inside a summary. -/
def DIM_TOXICITY : String := "toxicity risk"

/-- Name of the fraud dimension inside a summary. -/
def DIM_FRAUD : String := "fraud risk"

/-- Name of the PII dimension inside a summary. -/
def DIM_PII : String := "PII exposure"

/-- The five dimension names in the fixed summary order. -/
def ALL_DIMS : List String :=
  [DIM_HALLUCINATION, DIM_BIAS, DIM_TOXICITY, DIM_FRAUD, DIM_PII]

/-- Modelled from the spec: the list of risk dimensions flagged by the
summary generator of the missing `ml_service.py` — the dimensions whose
level is MEDIUM or HIGH, plus PII when true, in the fixed order
hallucination, bias, toxicity, fraud, PII (spec section 4.7). -/
def riskDimNames (h b t f : RiskLevel) (pii : Bool) : List String :=
  (if h = RiskLevel.LOW then [] else [DIM_HALLUCINATION]) ++
    (if b = RiskLevel.LOW then [] else [DIM_BIAS]) ++
    (if t = RiskLevel.LOW then [] else [DIM_TOXICITY]) ++
    (if f = RiskLevel.LOW then [] else [DIM_FRAUD]) ++
    (if pii then [DIM_PII] else [])

/-- Modelled from the spec: `generate_summary` of the missing
`ml_service.py` (spec section 4.7) — the affirmative sentence when all four
levels are LOW and PII is false, otherwise one sentence enumerating the
flagged dimensions in the fixed order. -/
def generate_summary (h b t f : RiskLevel) (pii : Bool) : String :=
  let parts := riskDimNames h b t f pii
  if parts = [] then NO_RISK_SUMMARY
  else "Analysis identified " ++ String.intercalate ", " parts ++ "."

/-- The error taxonomy of the engine (spec section 7): a client error for
missing/empty text, a server error for unexpected failures. -/
inductive AnalyzeError where
  | invalidInput
  | internalFailure
deriving DecidableEq

/-- The sole output entity of the engine (spec section 3). -/
structure RiskAssessment where
  hallucination_risk : RiskLevel
  bias_risk : RiskLevel
  toxicity_risk : RiskLevel
  fraud_risk : RiskLevel
  pii_leak : Bool
  confidence_score : ℚ
  summary : String
  processing_time_ms : ℚ
deriving DecidableEq

/-- Whether `c` is an ASCII whitespace character. -/
def isSpaceCh (c : Char) : Bool :=
  c == ' ' || c == '\t' || c == '\n' || c == '\r'

/-- Whether the text is empty or whitespace-only (empty after trimming). -/
def blankText (t : String) : Bool :=
  t.data.all isSpaceCh

/-- Modelled from the spec: the `analyze` orchestration of the missing
`ml_service.py` (spec section 4.8).  The measured wall-clock duration is the
one non-deterministic input of the real engine and is passed in explicitly
as `elapsed`. -/
def analyze (elapsed : ℚ) (t : String) : Except AnalyzeError RiskAssessment :=
  if blankText t then Except.error AnalyzeError.invalidInput
  else
    let h := detect_hallucination t
    let b := detect_bias t
    let tox := detect_toxicity t
    let f := detect_fraud t
    let pii := detect_pii t
    Except.ok
      { hallucination_risk := h
        bias_risk := b
        toxicity_risk := tox
        fraud_risk := f
        pii_leak := pii
        confidence_score := calculate_confidence t h b tox f pii
        summary := generate_summary h b tox f pii
        processing_time_ms := elapsed }

/-- Projection: the hallucination level of an analysis outcome. -/
def hallucOf (x : Except AnalyzeError RiskAssessment) : Option RiskLevel :=
  match x with
  | Except.ok r => some r.hallucination_risk
  | Except.error _ => none

/-- Projection: the bias level of an analysis outcome. -/
def biasOf (x : Except AnalyzeError RiskAssessment) : Option RiskLevel :=
  match x with
  | Except.ok r => some r.bias_risk
  | Except.error _ => none

/-- Projection: the toxicity level of an analysis outcome. -/
def toxOf (x : Except AnalyzeError RiskAssessment) : Option RiskLevel :=
  match x with
  | Except.ok r => some r.toxicity_risk
  | Except.error _ => none

/-- Projection: the fraud level of an analysis outcome. -/
def fraudOf (x : Except AnalyzeError RiskAssessment) : Option RiskLevel :=
  match x with
  | Except.ok r => some r.fraud_risk
  | Except.error _ => none

/-- Projection: the PII flag of an analysis outcome. -/
def piiOf (x : Except AnalyzeError RiskAssessment) : Option Bool :=
  match x with
  | Except.ok r => some r.pii_leak
  | Except.error _ => none

/-- Projection: the summary of an analysis outcome. -/
def summaryOf (x : Except AnalyzeError RiskAssessment) : Option String :=
  match x with
  | Except.ok r => some r.summary
  | Except.error _ => none

/-- Projection: the confidence score of an analysis outcome. -/
def confOf (x : Except AnalyzeError RiskAssessment) : Option ℚ :=
  match x with
  | Except.ok r => some r.confidence_score
  | Except.error _ => none

/-- On success the recorded processing time is non-negative; errors carry no
processing time. -/
def ptimeNonneg (x : Except AnalyzeError RiskAssessment) : Prop :=
  match x with
  | Except.ok r => 0 ≤ r.processing_time_ms
  | Except.error _ => True

/-- On success the confidence score lies in [0,1] and in the nominal
0.75-0.99 band; errors carry no confidence. -/
def confInBounds (x : Except AnalyzeError RiskAssessment) : Prop :=
  match x with
  | Except.ok r =>
    0 ≤ r.confidence_score ∧ r.confidence_score ≤ 1 ∧
      3 / 4 ≤ r.confidence_score ∧ r.confidence_score ≤ 99 / 100
  | Except.error _ => True

/-- A complete, well-formed outcome: a fully populated assessment whose
invariants hold, or an error from the documented taxonomy. -/
def wellFormedOutcome (x : Except AnalyzeError RiskAssessment) : Prop :=
  match x with
  | Except.ok r =>
    (0 ≤ r.confidence_score ∧ r.confidence_score ≤ 1) ∧
      r.summary ≠ "" ∧ 0 ≤ r.processing_time_ms
  | Except.error e =>
    e = AnalyzeError.invalidInput ∨ e = AnalyzeError.internalFailure

/-- The ML-service timeout of the chat relay, in milliseconds
(`Backend/routes/chat.js`). -/
def ML_TIMEOUT : Nat := 10000

/-- The fields of a successful ML `/analyze` response that the relay copies
into its `mlFlags` object (`Backend/routes/chat.js`). -/
structure MLData where
  hallucination_risk : String
  bias_risk : String
  toxicity_risk : String
  pii_leak : Bool
  fraud_risk : String
  confidence_score : ℚ
  processing_time_ms : ℚ
deriving DecidableEq

/-- The `mlFlags` object of a relay response: either the mapped ML data with
status `success`, or exactly a status `unavailable` object carrying the
error message. -/
inductive MLFlags where
  | success (d : MLData)
  | unavailable (errMsg : String)
deriving DecidableEq

/-- Outcome of the relay's call to the text-generation API: a returned
string (the empty string models a falsy return), or a thrown error. -/
inductive GenOutcome where
  | ok (text : String)
  | threw (msg : String)
deriving DecidableEq

/-- Outcome of the relay's call to the ML `/analyze` endpoint: a parsed
response, or a failure (network error or exceeded timeout). -/
inductive MLOutcome where
  | ok (d : MLData)
  | failed (msg : String)
deriving DecidableEq

/-- The observable part of a relay route response. -/
structure ThreadResponse where
  httpStatus : Nat
  success : Bool
  reply : Option String
  mlFlags : Option MLFlags
  errorMsg : Option String
deriving DecidableEq

/-- `POST /thread` of `Backend/routes/chat.js`: validate the prompt, call
text generation, then call the ML service with its own try/catch so an ML
failure degrades `mlFlags` to `unavailable` instead of failing the request.
`gen` and `ml` are the outcomes of the two external calls as functions of
what is sent to them; a missing or empty prompt models a falsy `prompt`. -/
def threadHandler (gen : String → GenOutcome) (ml : String → MLOutcome)
    (prompt : Option String) : ThreadResponse :=
  match prompt with
  | none =>
    { httpStatus := 400, success := false, reply := none, mlFlags := none,
      errorMsg := some "prompt is required" }
  | some p =>
    if p = "" then
      { httpStatus := 400, success := false, reply := none, mlFlags := none,
        errorMsg := some "prompt is required" }
    else
      match gen p with
      | GenOutcome.threw _ =>
        { httpStatus := 500, success := false, reply := none, mlFlags := none,
          errorMsg := some "Generation or risk scoring failed" }
      | GenOutcome.ok out =>
        if out = "" then
          { httpStatus := 400, success := false, reply := none, mlFlags := none,
            errorMsg := some "Failed to generate text from OpenAI" }
        else
          let flags :=
            match ml out with
            | MLOutcome.ok d => MLFlags.success d
            | MLOutcome.failed m => MLFlags.unavailable m
          { httpStatus := 200, success := true, reply := some out,
            mlFlags := some flags, errorMsg := none }

/-- An apostrophe, as it appears inside the mock responses. -/
def apos : String := String.singleton (Char.ofNat 39)

/-- Case-insensitive keyword test on a prompt, as in
`prompt.toLowerCase().includes(kw)` of the test routes. -/
def promptHas (kw : String) (p : String) : Bool :=
  listInfix kw.data (lowerStr p)

/-- The mock generation of the two `test-ui` routes: a fixed preamble plus a
branch chosen by keywords of the prompt. -/
def mockResponse (prompt : String) : String :=
  let base := "Based on your query, here" ++ apos ++ "s what I can tell you: "
  if promptHas "email" prompt || promptHas "contact" prompt then
    base ++ "You can contact our support team at support@example.com or call us at 555-123-4567. We" ++ apos ++ "re here to help with any questions you may have!"
  else if promptHas "price" prompt || promptHas "cost" prompt then
    base ++ "Our pricing is absolutely the best in the market, guaranteed! Everyone agrees this is definitely the most affordable option without any doubt whatsoever. Act now for this limited time offer!"
  else if promptHas "bad" prompt || promptHas "negative" prompt then
    base ++ "That idea is terrible and stupid. I hate that suggestion, it" ++ apos ++ "s the worst thing I" ++ apos ++ "ve ever heard. It" ++ apos ++ "s completely horrible and awful."
  else
    base ++ "I" ++ apos ++ "d be happy to help you with that. Let me provide some information that might be useful for your situation. Perhaps you could provide more details about what specifically you" ++ apos ++ "re looking for?"

/-- `POST /test-ui` of the test route that calls the real ML service
(mock generation, then the ML call with its own try/catch). -/
def testUi5Handler (ml : String → MLOutcome) (prompt : Option String) :
    ThreadResponse :=
  match prompt with
  | none =>
    { httpStatus := 400, success := false, reply := none, mlFlags := none,
      errorMsg := some "prompt is required" }
  | some p =>
    if p = "" then
      { httpStatus := 400, success := false, reply := none, mlFlags := none,
        errorMsg := some "prompt is required" }
    else
      let out := mockResponse p
      let flags :=
        match ml out with
        | MLOutcome.ok d => MLFlags.success d
        | MLOutcome.failed m => MLFlags.unavailable m
      { httpStatus := 200, success := true, reply := some out,
        mlFlags := some flags, errorMsg := none }

/-- The hard-coded mock `mlFlags` of the fully mocked `test-ui` route. -/
def mockMLData (p : String) : MLData :=
  { hallucination_risk := "MEDIUM"
    bias_risk := "LOW"
    toxicity_risk := "LOW"
    pii_leak := promptHas "email" p || promptHas "contact" p
    fraud_risk := if promptHas "price" p then "HIGH" else "LOW"
    confidence_score := 3 / 4
    processing_time_ms := 25 / 2 }

/-- `POST /test-ui` of the fully mocked test route (no external calls:
mock generation and mock `mlFlags`). -/
def testUi4Handler (prompt : Option String) : ThreadResponse :=
  match prompt with
  | none =>
    { httpStatus := 400, success := false, reply := none, mlFlags := none,
      errorMsg := some "prompt is required" }
  | some p =>
    if p = "" then
      { httpStatus := 400, success := false, reply := none, mlFlags := none,
        errorMsg := some "prompt is required" }
    else
      { httpStatus := 200, success := true, reply := some (mockResponse p),
        mlFlags := some (MLFlags.success (mockMLData p)), errorMsg := none }

/-- A fixed generation outcome used by concrete witnesses. -/
def genW : String → GenOutcome :=
  fun _ => GenOutcome.ok "generated reply"

/-- A fixed failing ML outcome used by concrete witnesses. -/
def mlW : String → MLOutcome :=
  fun _ => MLOutcome.failed "timeout of 10000ms exceeded"

/-- A fixed ML data record used by concrete witnesses. -/
def dW : MLData :=
  { hallucination_risk := "LOW", bias_risk := "LOW", toxicity_risk := "LOW",
    pii_leak := false, fraud_risk := "LOW", confidence_score := 3 / 4,
    processing_time_ms := 1 }

/-- A fixed succeeding ML outcome used by concrete witnesses. -/
def mlOkW : String → MLOutcome :=
  fun _ => MLOutcome.ok dW

/-- Whether a given dimension name is flagged for the given levels and PII
boolean: level MEDIUM or HIGH for the four level dimensions, true for PII. -/
def dimFlagged (h b t f : RiskLevel) (pii : Bool) (d : String) : Bool :=
  (d == DIM_HALLUCINATION && !(h == RiskLevel.LOW)) ||
    (d == DIM_BIAS && !(b == RiskLevel.LOW)) ||
    (d == DIM_TOXICITY && !(t == RiskLevel.LOW)) ||
    (d == DIM_FRAUD && !(f == RiskLevel.LOW)) ||
    (d == DIM_PII && pii)

/-- The three-tier thresholding, stated as properties of `levelOfCount`. -/
theorem levelOfCount_tiers (n : Nat) :
    (n = 0 → levelOfCount n = RiskLevel.LOW) ∧
    (1 ≤ n ∧ n ≤ 2 → levelOfCount n = RiskLevel.MEDIUM) ∧
    (3 ≤ n → levelOfCount n = RiskLevel.HIGH) := by
  refine ⟨fun h0 => ?_, fun h12 => ?_, fun h3 => ?_⟩
  · subst h0; rfl
  · unfold levelOfCount
    rw [if_neg (by omega), if_pos h12.1]
  · unfold levelOfCount
    rw [if_pos h3]

/-- Claim C1: for each of the four keyword detectors, a text with 3 or more
matching keywords from its list yields HIGH, exactly 1 or 2 matches yields
MEDIUM, and 0 matches yields LOW. -/
theorem detector_threshold_tiers (t : String) :
    ((countMatches HALLUCINATION_KEYWORDS t = 0 → detect_hallucination t = RiskLevel.LOW) ∧
     (1 ≤ countMatches HALLUCINATION_KEYWORDS t ∧ countMatches HALLUCINATION_KEYWORDS t ≤ 2 →
       detect_hallucination t = RiskLevel.MEDIUM) ∧
     (3 ≤ countMatches HALLUCINATION_KEYWORDS t → detect_hallucination t = RiskLevel.HIGH)) ∧
    ((countMatches BIAS_KEYWORDS t = 0 → detect_bias t = RiskLevel.LOW) ∧
     (1 ≤ countMatches BIAS_KEYWORDS t ∧ countMatches BIAS_KEYWORDS t ≤ 2 →
       detect_bias t = RiskLevel.MEDIUM) ∧
     (3 ≤ countMatches BIAS_KEYWORDS t → detect_bias t = RiskLevel.HIGH)) ∧
    ((countMatches TOXICITY_KEYWORDS t = 0 → detect_toxicity t = RiskLevel.LOW) ∧
     (1 ≤ countMatches TOXICITY_KEYWORDS t ∧ countMatches TOXICITY_KEYWORDS t ≤ 2 →
       detect_toxicity t = RiskLevel.MEDIUM) ∧
     (3 ≤ countMatches TOXICITY_KEYWORDS t → detect_toxicity t = RiskLevel.HIGH)) ∧
    ((countMatches FRAUD_KEYWORDS t = 0 → detect_fraud t = RiskLevel.LOW) ∧
     (1 ≤ countMatches FRAUD_KEYWORDS t ∧ countMatches FRAUD_KEYWORDS t ≤ 2 →
       detect_fraud t = RiskLevel.MEDIUM) ∧
     (3 ≤ countMatches FRAUD_KEYWORDS t → detect_fraud t = RiskLevel.HIGH)) :=
  ⟨levelOfCount_tiers _, levelOfCount_tiers _, levelOfCount_tiers _,
   levelOfCount_tiers _⟩

/-- Claim C1 witness: concrete texts hitting the HIGH, MEDIUM and LOW tiers
of the four detectors. -/
theorem detector_threshold_tiers_witness :
    detect_hallucination "definitely absolutely guaranteed" = RiskLevel.HIGH ∧
    detect_bias "always never all" = RiskLevel.HIGH ∧
    detect_toxicity "hate stupid idiot" = RiskLevel.HIGH ∧
    detect_fraud "guaranteed free money act now" = RiskLevel.HIGH ∧
    detect_hallucination "definitely" = RiskLevel.MEDIUM ∧
    detect_hallucination "hello" = RiskLevel.LOW :=
  ⟨(detector_threshold_tiers "definitely absolutely guaranteed").1.2.2 (by decide),
   (detector_threshold_tiers "always never all").2.1.2.2 (by decide),
   (detector_threshold_tiers "hate stupid idiot").2.2.1.2.2 (by decide),
   (detector_threshold_tiers "guaranteed free money act now").2.2.2.2.2 (by decide),
   (detector_threshold_tiers "definitely").1.2.1 (by decide),
   (detector_threshold_tiers "hello").1.1 (by decide)⟩

/-- Claim C3: `analyze` rejects the empty and the whitespace-only string
with `InvalidInput`, never defaulting to a LOW-risk assessment. -/
theorem analyze_rejects_empty (e : ℚ) :
    analyze e "" = Except.error AnalyzeError.invalidInput ∧
    analyze e "   " = Except.error AnalyzeError.invalidInput :=
  ⟨rfl, rfl⟩

/-- Claim C6: `pii_leak` is the OR of the five independent pattern checks,
and the concrete email text is flagged. -/
theorem pii_or_of_five_checks :
    (∀ t : String, detect_pii t =
      (emailMatch t.data || phoneMatch t.data || ssnMatch t.data ||
        creditCardMatch t.data || addressMatch t.data)) ∧
    piiOf (analyze 0 "Contact me at john.doe@example.com") = some true :=
  ⟨fun _ => rfl, by decide⟩

/-- Claim C8: on the concrete toxic input, toxicity is HIGH from 5 distinct
toxic keywords, the other three levels are LOW or MEDIUM, and no PII is
flagged. -/
theorem toxic_scenario_end_to_end :
    countMatches TOXICITY_KEYWORDS
      "This is terrible and stupid. I hate this awful idea. It is horrible." = 5 ∧
    toxOf (analyze 0
      "This is terrible and stupid. I hate this awful idea. It is horrible.") =
      some RiskLevel.HIGH ∧
    (hallucOf (analyze 0
      "This is terrible and stupid. I hate this awful idea. It is horrible.") =
        some RiskLevel.LOW ∨
     hallucOf (analyze 0
      "This is terrible and stupid. I hate this awful idea. It is horrible.") =
        some RiskLevel.MEDIUM) ∧
    (biasOf (analyze 0
      "This is terrible and stupid. I hate this awful idea. It is horrible.") =
        some RiskLevel.LOW ∨
     biasOf (analyze 0
      "This is terrible and stupid. I hate this awful idea. It is horrible.") =
        some RiskLevel.MEDIUM) ∧
    (fraudOf (analyze 0
      "This is terrible and stupid. I hate this awful idea. It is horrible.") =
        some RiskLevel.LOW ∨
     fraudOf (analyze 0
      "This is terrible and stupid. I hate this awful idea. It is horrible.") =
        some RiskLevel.MEDIUM) ∧
    piiOf (analyze 0
      "This is terrible and stupid. I hate this awful idea. It is horrible.") =
      some false :=
  ⟨by decide, by decide, Or.inl (by decide), Or.inl (by decide),
   Or.inl (by decide), by decide⟩

/-- Claim C2: on identical input the two calls agree on every field but the
measured processing time, and a non-negative measured duration yields a
non-negative `processing_time_ms`. -/
theorem analyze_deterministic (t : String) (e₁ e₂ : ℚ) :
    hallucOf (analyze e₁ t) = hallucOf (analyze e₂ t) ∧
    biasOf (analyze e₁ t) = biasOf (analyze e₂ t) ∧
    toxOf (analyze e₁ t) = toxOf (analyze e₂ t) ∧
    fraudOf (analyze e₁ t) = fraudOf (analyze e₂ t) ∧
    piiOf (analyze e₁ t) = piiOf (analyze e₂ t) ∧
    summaryOf (analyze e₁ t) = summaryOf (analyze e₂ t) ∧
    confOf (analyze e₁ t) = confOf (analyze e₂ t) ∧
    (0 ≤ e₁ → ptimeNonneg (analyze e₁ t)) := by
  by_cases hc : blankText t = true <;>
    simp [analyze, hc, hallucOf, biasOf, toxOf, fraudOf, piiOf, summaryOf,
      confOf, ptimeNonneg]

/-- Claim C2 witness: the determinism and time bound at a concrete input. -/
theorem analyze_deterministic_witness :
    hallucOf (analyze 1 "hello") = hallucOf (analyze 2 "hello") ∧
    ptimeNonneg (analyze 1 "hello") := by
  obtain ⟨h1, _, _, _, _, _, _, h8⟩ := analyze_deterministic "hello" 1 2
  exact ⟨h1, h8 (by norm_num)⟩

/-- The clamp of the confidence estimator keeps every raw value inside the
nominal 0.75-0.99 band. -/
theorem calc_conf_band (t : String) (h b tox f : RiskLevel) (pii : Bool) :
    3 / 4 ≤ calculate_confidence t h b tox f pii ∧
      calculate_confidence t h b tox f pii ≤ 99 / 100 := by
  obtain ⟨raw, hr⟩ :
      ∃ raw : ℚ, calculate_confidence t h b tox f pii =
        max (3 / 4) (min (99 / 100) raw) := ⟨_, rfl⟩
  rw [hr]
  exact ⟨le_max_left _ _, max_le (by norm_num) (min_le_left _ _)⟩

/-- Claim C5: every confidence score is inside [0,1], and in fact inside the
nominal 0.75-0.99 band, both for the estimator itself and through
`analyze`. -/
theorem confidence_score_bounds :
    (∀ (t : String) (h b tox f : RiskLevel) (pii : Bool),
      0 ≤ calculate_confidence t h b tox f pii ∧
        calculate_confidence t h b tox f pii ≤ 1 ∧
        3 / 4 ≤ calculate_confidence t h b tox f pii ∧
        calculate_confidence t h b tox f pii ≤ 99 / 100) ∧
    (∀ (e : ℚ) (t : String), confInBounds (analyze e t)) := by
  have key : ∀ (t : String) (h b tox f : RiskLevel) (pii : Bool),
      0 ≤ calculate_confidence t h b tox f pii ∧
        calculate_confidence t h b tox f pii ≤ 1 ∧
        3 / 4 ≤ calculate_confidence t h b tox f pii ∧
        calculate_confidence t h b tox f pii ≤ 99 / 100 := by
    intro t h b tox f pii
    obtain ⟨h1, h2⟩ := calc_conf_band t h b tox f pii
    exact ⟨by linarith, by linarith, h1, h2⟩
  refine ⟨key, fun e t => ?_⟩
  by_cases hc : blankText t = true <;>
    simp [analyze, hc, confInBounds]
  exact ⟨(key t _ _ _ _ _).1, (key t _ _ _ _ _).2.1, (key t _ _ _ _ _).2.2⟩

/-- Every generated summary sentence is non-empty. -/
theorem generate_summary_ne_empty (h b t f : RiskLevel) (pii : Bool) :
    generate_summary h b t f pii ≠ "" := by
  revert h b t f pii
  decide

/-- Claim C7: every call returns either a fully populated, invariant-abiding
assessment or an error from the documented taxonomy — never a partial
result. -/
theorem analyze_complete_or_error (t : String) (e : ℚ) (he : 0 ≤ e) :
    wellFormedOutcome (analyze e t) := by
  by_cases hc : blankText t = true <;>
    simp [analyze, hc, wellFormedOutcome]
  obtain ⟨h1, h2⟩ := calc_conf_band t (detect_hallucination t) (detect_bias t)
    (detect_toxicity t) (detect_fraud t) (detect_pii t)
  exact ⟨⟨by linarith, by linarith⟩, generate_summary_ne_empty _ _ _ _ _, he⟩

/-- Claim C7 witness: a concrete call is complete and well-formed. -/
theorem analyze_complete_or_error_witness :
    wellFormedOutcome (analyze 1 "hello") :=
  analyze_complete_or_error "hello" 1 (by norm_num)

/-- Claim C4: the summary is the affirmative sentence exactly when all four
levels are LOW and PII is false, and otherwise the flagged-dimension list is
precisely the filter of the five dimension names, in the fixed order, by the
MEDIUM-or-HIGH (or PII-true) condition. -/
theorem summary_characterization :
    ∀ (h b t f : RiskLevel) (pii : Bool),
      (generate_summary h b t f pii = NO_RISK_SUMMARY ↔
        (h = RiskLevel.LOW ∧ b = RiskLevel.LOW ∧ t = RiskLevel.LOW ∧
          f = RiskLevel.LOW ∧ pii = false)) ∧
      riskDimNames h b t f pii = ALL_DIMS.filter (dimFlagged h b t f pii) := by
  decide

/-- Claim C9: when generation succeeds, `POST /thread` answers 200 with the
reply regardless of the ML outcome; an ML failure or timeout only degrades
`mlFlags` to the `unavailable` object with the error message, never a 500. -/
theorem thread_ml_fallback (gen : String → GenOutcome) (ml : String → MLOutcome)
    (p out : String) (hp : p ≠ "") (hg : gen p = GenOutcome.ok out)
    (ho : out ≠ "") :
    (threadHandler gen ml (some p)).httpStatus = 200 ∧
    (threadHandler gen ml (some p)).success = true ∧
    (threadHandler gen ml (some p)).reply = some out ∧
    (threadHandler gen ml (some p)).httpStatus ≠ 500 ∧
    (∀ m, ml out = MLOutcome.failed m →
      (threadHandler gen ml (some p)).mlFlags =
        some (MLFlags.unavailable m)) := by
  simp only [threadHandler]
  rw [if_neg hp, hg]
  simp [ho]
  intro m hm
  rw [hm]

/-- Claim C9 witness: a concrete prompt, a concrete generated reply and a
concrete ML timeout message. -/
theorem thread_ml_fallback_witness :
    (threadHandler genW mlW (some "hi")).httpStatus = 200 ∧
    (threadHandler genW mlW (some "hi")).mlFlags =
      some (MLFlags.unavailable "timeout of 10000ms exceeded") := by
  obtain ⟨h1, _, _, _, h5⟩ :=
    thread_ml_fallback genW mlW "hi" "generated reply" (by decide) rfl (by decide)
  exact ⟨h1, h5 "timeout of 10000ms exceeded" rfl⟩

/-- Claim C10: the three route handlers reject a missing or empty prompt
with 400, but a whitespace-only prompt is truthy: it is accepted and
forwarded to generation and risk scoring. -/
theorem prompt_truthiness_validation (gen : String → GenOutcome)
    (ml : String → MLOutcome) :
    (threadHandler gen ml none).httpStatus = 400 ∧
    (threadHandler gen ml (some "")).httpStatus = 400 ∧
    (testUi5Handler ml none).httpStatus = 400 ∧
    (testUi5Handler ml (some "")).httpStatus = 400 ∧
    (testUi4Handler none).httpStatus = 400 ∧
    (testUi4Handler (some "")).httpStatus = 400 ∧
    (∀ out, gen "   " = GenOutcome.ok out → out ≠ "" →
      (threadHandler gen ml (some "   ")).httpStatus = 200 ∧
      (threadHandler gen ml (some "   ")).reply = some out) ∧
    (testUi5Handler ml (some "   ")).httpStatus = 200 ∧
    (testUi5Handler ml (some "   ")).reply = some (mockResponse "   ") ∧
    (∀ d, ml (mockResponse "   ") = MLOutcome.ok d →
      (testUi5Handler ml (some "   ")).mlFlags =
        some (MLFlags.success d)) ∧
    (testUi4Handler (some "   ")).httpStatus = 200 ∧
    (testUi4Handler (some "   ")).reply = some (mockResponse "   ") := by
  refine ⟨rfl, rfl, rfl, rfl, rfl, rfl, ?_, rfl, rfl, ?_, rfl, rfl⟩
  · intro out hg ho
    simp only [threadHandler]
    rw [if_neg (by decide : ¬("   " = "")), hg]
    simp [ho]
  · intro d hd
    simp only [testUi5Handler]
    rw [if_neg (by decide : ¬("   " = ""))]
    simp [hd]

/-- Claim C10 witness: concrete generation and ML outcomes at the missing,
empty and whitespace-only prompts. -/
theorem prompt_truthiness_validation_witness :
    (threadHandler genW mlW none).httpStatus = 400 ∧
    (threadHandler genW mlW (some "")).httpStatus = 400 ∧
    (threadHandler genW mlW (some "   ")).reply = some "generated reply" ∧
    (testUi5Handler mlOkW (some "   ")).mlFlags = some (MLFlags.success dW) ∧
    (testUi4Handler (some "   ")).httpStatus = 200 := by
  obtain ⟨a1, a2, _, _, _, _, a7, _, _, _, _, _⟩ :=
    prompt_truthiness_validation genW mlW
  obtain ⟨_, _, _, _, _, _, _, _, _, b10, b11, _⟩ :=
    prompt_truthiness_validation genW mlOkW
  exact ⟨a1, a2, (a7 "generated reply" rfl (by decide)).2, b10 dW rfl, b11⟩
